import Mathlib

/-!
# Verification of the metrics acquisition and caching subsystem of `bot.py`

A shallow embedding of the core of `src/bot.py`: the per-platform fetch
strategies (`PlatformScraper`), the TTL cache (`StatsCache`) and the
collector (`StatsCollector`), together with theorems settling the frozen
claims about them.

Modelling conventions:
* Python dynamic values parsed from JSON are the inductive `Json` below
  (mutual with its own list and field-list types so that every recursion
  is structural).  Python `None` is `Json.null`; JSON numbers are modelled
  as integers (no claim touches fractional JSON numbers).
* Python exceptions become the `PyExc` sum; code that can raise returns
  `Except PyExc α`.
* CPython `float` values reachable here (non-negative, produced by
  `float(<digit/dot string>)` and one multiplication by 1, 10^3, 10^6 or
  10^9) are modelled bit-faithfully by `PyFloat`: a non-negative dyadic
  value `num * 2^exp` obtained by correct IEEE-754 round-to-nearest-even
  to 53 significant bits (with the subnormal cutoff at 2^-1074 and
  overflow to `inf` at 2^1024), exactly as CPython's correctly rounded
  `float()` conversion and double multiplication behave.
* Network and library effects (HTTP responses, `yt_dlp` resolution,
  regex extraction of embedded page JSON, the hash primitives of
  `hashlib`) are inputs of the embedded functions: each function takes
  the outcome of its outward calls as an argument and the code under
  verification is everything the Python source does with those outcomes.
-/

/-! ## JSON values -/

mutual

inductive Json where
  | null : Json
  | bool (b : Bool) : Json
  | num (n : Int) : Json
  | str (s : String) : Json
  | arr (items : JsonList) : Json
  | obj (fields : JsonFields) : Json

inductive JsonList where
  | nil : JsonList
  | cons (head : Json) (tail : JsonList) : JsonList

inductive JsonFields where
  | nil : JsonFields
  | cons (key : String) (value : Json) (tail : JsonFields) : JsonFields

end

/-- Build an object from a plain list of pairs (notation helper only). -/
def JsonFields.ofList : List (String × Json) → JsonFields
  | [] => .nil
  | (k, v) :: rest => .cons k v (JsonFields.ofList rest)

/-- Build an array from a plain list (notation helper only). -/
def JsonList.ofList : List Json → JsonList
  | [] => .nil
  | v :: rest => .cons v (JsonList.ofList rest)

/-- Object literal helper. -/
def jobj (l : List (String × Json)) : Json := .obj (JsonFields.ofList l)

/-- Array literal helper. -/
def jarr (l : List Json) : Json := .arr (JsonList.ofList l)

/-- Python truthiness of a JSON-shaped value: `None`, `False`, `0`, `""`,
`[]` and `{}` are falsy, everything else truthy. -/
def Json.truthy : Json → Bool
  | .null => false
  | .bool b => b
  | .num n => n != 0
  | .str s => s != ""
  | .arr .nil => false
  | .arr (.cons _ _) => true
  | .obj .nil => false
  | .obj (.cons _ _ _) => true

/-- First binding of `key` in an object's field list (Python dicts parsed
from JSON have unique keys, so first-match lookup models `obj[key]`). -/
def JsonFields.lookup : JsonFields → String → Option Json
  | .nil, _ => none
  | .cons k v rest, key => if k == key then some v else JsonFields.lookup rest key

/-! ## Python exceptions -/

/-- The exception types the embedded code can raise or catch.  `reqError`
stands for `requests.RequestException` (including the `HTTPError` raised by
`raise_for_status`), `tempBlock` for the source's `TemporaryBlockError`. -/
inductive PyExc where
  | tempBlock (msg : String)
  | reqError (msg : String)
  | runtimeError (msg : String)
  | valueError (msg : String)
  | indexError (msg : String)
  | overflowError (msg : String)
  | attributeError (msg : String)

/-- Python `str(exc)`: the exception's message. -/
def PyExc.toMessage : PyExc → String
  | .tempBlock m => m
  | .reqError m => m
  | .runtimeError m => m
  | .valueError m => m
  | .indexError m => m
  | .overflowError m => m
  | .attributeError m => m

/-- Python `str(value)` for JSON-shaped values.  Containers are rendered
abbreviated (no call site in the claims depends on container rendering). -/
def Json.pyStr : Json → String
  | .null => "None"
  | .bool b => if b then "True" else "False"
  | .num n => toString n
  | .str s => s
  | .arr _ => "[...]"
  | .obj _ => "<dict>"

/-- `value.get(key)`: `None` when absent; `AttributeError` when the
receiver is not a dict (the source calls `.get` on dynamically typed
values). -/
def Json.pyGet (v : Json) (key : String) : Except PyExc Json :=
  match v with
  | .obj fields =>
    match fields.lookup key with
    | some r => .ok r
    | none => .ok .null
  | _ => .error (.attributeError "object has no attribute get")

/-- `value.get(key, default)`. -/
def Json.pyGetD (v : Json) (key : String) (dflt : Json) : Except PyExc Json :=
  match v with
  | .obj fields =>
    match fields.lookup key with
    | some r => .ok r
    | none => .ok dflt
  | _ => .error (.attributeError "object has no attribute get")

/-! ## `StatsCache` (`src/bot.py` lines 383-400)

Time is modelled as an integer number of seconds; `datetime.now(...)` is an
input of each operation.  `get` only reads state in the source (it contains
no assignment), so it is embedded as a pure function of the cache value. -/

/-- One result of a collection cycle as stored in the `results` dict: the
platform entries are dicts, `generated_at` is a `datetime` (not a dict). -/
inductive CollectVal (α : Type) where
  | res (p : α) : CollectVal α
  | time (t : Int) : CollectVal α

structure StatsCache (α : Type) where
  ttl : Int
  timestamp : Option Int
  payload : Option (List (String × CollectVal α))

/-- `StatsCache.__init__`. -/
def StatsCache.init (α : Type) (ttlSeconds : Int) : StatsCache α :=
  ⟨ttlSeconds, none, none⟩

/-- `StatsCache.get`: `None` when no (truthy) payload or no timestamp is
stored or when `now - timestamp > ttl`; otherwise the stored payload.
An empty stored dict is falsy in Python, hence treated as not stored. -/
def StatsCache.get (c : StatsCache α) (now : Int) : Option (List (String × CollectVal α)) :=
  match c.payload, c.timestamp with
  | some [], _ => none
  | some p, some ts =>
    if now - ts > c.ttl then none
    else some p
  | _, _ => none

/-- `StatsCache.set`: unconditional overwrite plus timestamp refresh. -/
def StatsCache.set (c : StatsCache α) (now : Int) (data : List (String × CollectVal α)) :
    StatsCache α :=
  { c with timestamp := some now, payload := some data }

/-! ## Collector cache policy (`src/bot.py` lines 403-449) -/

/-- `StatsCollector._should_cache`: `False` as soon as some dict-shaped
entry of the results mapping has a status other than `"ok"`; non-dict
entries (the `generated_at` timestamp) are skipped. -/
def should_cache (statusOf : α → Bool) (results : List (String × CollectVal α)) : Bool :=
  results.all fun kv =>
    match kv.2 with
    | .time _ => true
    | .res p => statusOf p

/-- `StatsCollector.get_stats`: serve the cache on a hit; otherwise attach
`generated_at` to the collected results, store them iff `_should_cache`
accepts them, and return them either way.  `collected` is the output of
`_collect`; `now`, `genAt` and `setNow` are the successive clock reads. -/
def get_stats (statusOf : α → Bool) (c : StatsCache α) (now : Int)
    (collected : List (String × CollectVal α)) (genAt setNow : Int) :
    List (String × CollectVal α) × StatsCache α :=
  match c.get now with
  | some cached => (cached, c)
  | none =>
    let results := collected ++ [("generated_at", CollectVal.time genAt)]
    if should_cache statusOf results then (results, c.set setNow results)
    else (results, c)

/-! ## CPython binary64 model

`_parse_count` computes `int(float(number) * multiplier)` in double
precision.  `PyFloat` models the values reachable there: non-negative
doubles, plus `inf` (decimal-to-float conversion of a huge literal).
Conversion and multiplication are correctly rounded to 53 significant
bits with round-to-nearest, ties-to-even, subnormal grid floor `2^-1074`
and overflow to `inf` at `2^1024` — CPython guarantees exactly this for
`float(str)` and `*`. -/

inductive PyFloat where
  | finite (num : Nat) (exp : Int)
  | inf

/-- Compare `a / b` with `2 ^ e` (for `a b > 0`). -/
def cmpPow2 (a b : Nat) (e : Int) : Ordering :=
  if 0 ≤ e then compare a (b * 2 ^ e.toNat)
  else compare (a * 2 ^ (-e).toNat) b

/-- `⌊log2 n⌋` for `n ≥ 1`, by structural recursion on a fuel bound (the
fuel `n` itself always suffices), so that it reduces inside the kernel. -/
def natLog2Fuel : Nat → Nat → Nat
  | 0, _ => 0
  | fuel + 1, n => if n ≤ 1 then 0 else natLog2Fuel fuel (n / 2) + 1

def natLog2 (n : Nat) : Nat := natLog2Fuel n n

/-- `⌊log2 (a / b)⌋` for `a b > 0`.  `natLog2 a - natLog2 b` is either
the answer or one too large, so one downward correction suffices. -/
def ratLog2 (a b : Nat) : Int :=
  let e0 : Int := (natLog2 a : Int) - (natLog2 b : Int)
  if cmpPow2 a b e0 = .lt then e0 - 1 else e0

/-- Round `n / d` to the nearest integer, ties to even (`d > 0`). -/
def roundHalfEven (n d : Nat) : Nat :=
  let q := n / d
  let r := n % d
  if 2 * r < d then q
  else if 2 * r > d then q + 1
  else if q % 2 = 0 then q else q + 1

/-- Whether `s * 2 ^ e ≥ 2 ^ 1024` (overflow threshold, for `s > 0`):
since `⌊log2 (s * 2 ^ e)⌋ = ⌊log2 s⌋ + e`, this holds exactly when that
floor reaches 1024. -/
def overflows (s : Nat) (e : Int) : Bool :=
  (natLog2 s : Int) + e ≥ 1024

/-- Correctly round the positive rational `a / b` to binary64. -/
def roundPosRat (a b : Nat) : PyFloat :=
  let e := max (ratLog2 a b - 52) (-1074)
  let s :=
    if 0 ≤ e then roundHalfEven a (b * 2 ^ e.toNat)
    else roundHalfEven (a * 2 ^ (-e).toNat) b
  if s = 0 then .finite 0 0
  else if overflows s e then .inf
  else .finite s e

/-- `float("<digits>[.<digits>]")`: the decimal value `N / 10 ^ k`,
correctly rounded. -/
def pyFloatOfDec (N k : Nat) : PyFloat :=
  if N = 0 then .finite 0 0 else roundPosRat N (10 ^ k)

/-- Double multiplication by an exactly representable positive integer
(the multipliers 1, 10^3, 10^6, 10^9), correctly rounded. -/
def PyFloat.mulNat (x : PyFloat) (m : Nat) : PyFloat :=
  match x with
  | .inf => .inf
  | .finite 0 _ => .finite 0 0
  | .finite n e =>
    if 0 ≤ e then roundPosRat (n * m * 2 ^ e.toNat) 1
    else roundPosRat (n * m) (2 ^ (-e).toNat)

/-- `int(x)` for a non-negative double: truncation toward zero (which is
the floor here); `OverflowError` on infinity. -/
def PyFloat.truncToNat : PyFloat → Except PyExc Nat
  | .inf => .error (.overflowError "cannot convert float infinity to integer")
  | .finite n e => if 0 ≤ e then .ok (n * 2 ^ e.toNat) else .ok (n / 2 ^ (-e).toNat)

/-- The exact rational value of a finite double (0 for `inf`; used only in
theorem statements). -/
def PyFloat.toRat : PyFloat → ℚ
  | .inf => 0
  | .finite n e => (n : ℚ) * (2 : ℚ) ^ (e : ℤ)

def PyFloat.isInf : PyFloat → Bool
  | .inf => true
  | .finite _ _ => false

/-! ## `PlatformScraper._parse_count` (`src/bot.py` lines 229-244)

String processing is carried out over `List Char`.  The character
predicates (`str.split()` whitespace, `str.isdigit`, the regex `\d`) are
modelled exactly on the code points below U+0100 — ASCII plus NEL and
NBSP — and theorems that quantify over arbitrary strings restrict
themselves to that repertoire (`modelledChar`).  Outside it CPython's
predicates accept further characters the model does not: other Unicode
spaces are `split()` separators, `isdigit()` accepts non-decimal digit
characters such as `²` that `int()` then rejects with `ValueError`, and
`\d` matches Unicode decimal digits that `float()` rejects. -/

/-- The whitespace set of CPython `str.split()` restricted to code points
below U+0100: the ASCII whitespace characters (including the separators
`\x1c`-`\x1f`) plus NEL (`\x85`) and NBSP (`\xa0`). -/
def pyWhitespace : List Char :=
  ['\t', '\n', '\x0b', '\x0c', '\r', '\x1c', '\x1d', '\x1e', '\x1f', ' ', '\x85', '\xa0']

def isPySpace (c : Char) : Bool := pyWhitespace.contains c

/-- The code points on which the embedding's character predicates
coincide with CPython's: ASCII, NEL and NBSP. -/
def modelledChar (c : Char) : Bool :=
  c.toNat < 128 || c == '\x85' || c == '\xa0'

def pySplitStep (c : Char) (ts : List (List Char)) : List (List Char) :=
  if isPySpace c then [] :: ts
  else
    match ts with
    | [] => [[c]]
    | t :: rest => (c :: t) :: rest

/-- Python `str.split()`: maximal runs of non-whitespace characters. -/
def pySplitTokens (cs : List Char) : List (List Char) :=
  (cs.foldr pySplitStep []).filter (· ≠ [])

/-- `str.replace(ch, "")`. -/
def removeChar (ch : Char) (cs : List Char) : List Char := cs.filter (· != ch)

/-- A character matched by the source regex's `[\d.]` — exact on the
modelled repertoire, where `\d` is the ASCII digits. -/
def isNumChar (c : Char) : Bool := c.isDigit || c == '.'

def natOfDigits (cs : List Char) : Nat :=
  cs.foldl (fun acc c => acc * 10 + (c.toNat - '0'.toNat)) 0

/-- CPython `float()` acceptance for a nonempty string of digits and dots:
at least one digit and at most one dot. -/
def validFloatChars (cs : List Char) : Bool :=
  cs.any Char.isDigit && cs.count '.' ≤ 1

/-- The double value of a valid `[0-9.]+` literal with digits `N` and `k`
fractional digits: `N / 10 ^ k` correctly rounded. -/
def pyFloatOfNumChars (cs : List Char) : PyFloat :=
  let N := natOfDigits (cs.filter Char.isDigit)
  let k := ((cs.dropWhile (· != '.')).drop 1).length
  pyFloatOfDec N k

/-- The suffix character class of the source regex, `[KMkMbB]` — note the
absence of lowercase `m` (the class repeats `M` instead). -/
def suffixClass (c : Char) : Bool :=
  c == 'K' || c == 'M' || c == 'k' || c == 'b' || c == 'B'

/-- `{"K": 1_000, "M": 1_000_000, "B": 1_000_000_000}.get(suffix.upper(), 1)`. -/
def multiplierOf (suffix : Option Char) : Nat :=
  match suffix.map Char.toUpper with
  | some 'K' => 1000
  | some 'M' => 1000000
  | some 'B' => 1000000000
  | _ => 1

/-- `_parse_count` on a truthy string: take the first whitespace token
(`IndexError` if the string is whitespace-only), strip NBSP, spaces and
commas, and either match `(?P<number>[\d.]+)(?P<suffix>[KMkMbB]?)` and
compute `int(float(number) * multiplier)` — `float` raising `ValueError`
on a malformed number, `int` raising `OverflowError` on infinity — or
fall back to extracting the raw digits.  Exact on the modelled
repertoire; beyond it the raw-digit fallback diverges (CPython's
`isdigit()` keeps characters such as `²` on which `int()` then raises
`ValueError`, while `Char.isDigit` drops them). -/
def parse_count_str (s : String) : Except PyExc (Option Int) :=
  match pySplitTokens s.toList with
  | [] => .error (.indexError "list index out of range")
  | tok :: _ =>
    let candidate := removeChar ',' (removeChar ' ' (removeChar '\xa0' tok))
    let numPart := candidate.takeWhile isNumChar
    match numPart with
    | [] =>
      let digits := candidate.filter Char.isDigit
      if digits.isEmpty then .ok none else .ok (some (natOfDigits digits))
    | _ :: _ =>
      let suffix := (candidate.drop numPart.length).head?.filter suffixClass
      let multiplier := multiplierOf suffix
      if validFloatChars numPart then
        match ((pyFloatOfNumChars numPart).mulNat multiplier).truncToNat with
        | .ok n => .ok (some (n : Int))
        | .error e => .error e
      else .error (.valueError "could not convert string to float")

/-- `_parse_count(text)`: `None` for falsy input; the string algorithm for
strings; `AttributeError` for truthy non-strings (the call sites pass
arbitrary JSON values to a parameter annotated `Optional[str]`). -/
def parse_count (text : Json) : Except PyExc (Option Int) :=
  if text.truthy = false then .ok none
  else
    match text with
    | .str s => parse_count_str s
    | _ => .error (.attributeError "object has no attribute split")

/-! ## Platform results

The per-platform fetchers return flat dicts.  Their possible shapes are:
`{"status": "not_configured"}`, `{"status": "blocked"|"error", "message": m}`
and `{"status": "ok", "identifier": i, <metric keys>}`.  `PRes` carries the
same information: `identifier = none` / `message = none` / `metrics = []`
mean the corresponding keys are absent from the dict. -/

inductive PStatus where
  | ok
  | notConfigured
  | blocked
  | error
deriving DecidableEq

structure PRes where
  status : PStatus
  identifier : Option Json
  metrics : List (String × Json)
  message : Option String

/-- `{"status": "not_configured"}`. -/
def notConfiguredRes : PRes := ⟨.notConfigured, none, [], none⟩

/-- `{"status": "error", "message": msg}`. -/
def errorRes (msg : String) : PRes := ⟨.error, none, [], some msg⟩

/-- `{"status": "blocked", "message": msg}`. -/
def blockedRes (msg : String) : PRes := ⟨.blocked, none, [], some msg⟩

def optIntJson : Option Int → Json
  | none => .null
  | some n => .num n

/-! ## `PlatformScraper._find_renderer` (`src/bot.py` lines 214-227) -/

mutual

/-- `_find_renderer(obj, key)`: on a dict, return `obj[key]` when the key
is present (whatever its value); otherwise recurse into the values in
order, discarding falsy recursive results (`if result:`); on a list,
recurse into the items the same way; `None` elsewhere. -/
def find_renderer (obj : Json) (key : String) : Option Json :=
  match obj with
  | .obj fields =>
    match fields.lookup key with
    | some v => some v
    | none => find_renderer_fields fields key
  | .arr items => find_renderer_list items key
  | _ => none

def find_renderer_fields (fields : JsonFields) (key : String) : Option Json :=
  match fields with
  | .nil => none
  | .cons _ v rest =>
    match find_renderer v key with
    | some r => if r.truthy then some r else find_renderer_fields rest key
    | none => find_renderer_fields rest key

def find_renderer_list (items : JsonList) (key : String) : Option Json :=
  match items with
  | .nil => none
  | .cons v rest =>
    match find_renderer v key with
    | some r => if r.truthy then some r else find_renderer_list rest key
    | none => find_renderer_list rest key

end

mutual

/-- Every value bound to `key` anywhere in the tree is falsy. -/
def allOccNotTruthy (key : String) (obj : Json) : Bool :=
  match obj with
  | .obj fields => allOccNotTruthyFields key fields
  | .arr items => allOccNotTruthyList key items
  | _ => true

def allOccNotTruthyFields (key : String) (fields : JsonFields) : Bool :=
  match fields with
  | .nil => true
  | .cons k v rest =>
    (k != key || !v.truthy) && allOccNotTruthy key v && allOccNotTruthyFields key rest

def allOccNotTruthyList (key : String) (items : JsonList) : Bool :=
  match items with
  | .nil => true
  | .cons v rest => allOccNotTruthy key v && allOccNotTruthyList key rest

end

mutual

/-- The search procedure as the claim describes it (for comparison with
`find_renderer`, not translated from the source): the value of the first
occurrence of the key in depth-first document order, where an occurrence
with a falsy value counts as not found and the search continues. -/
def find_renderer_claimed (obj : Json) (key : String) : Option Json :=
  match obj with
  | .obj fields => find_renderer_claimed_fields fields key
  | .arr items => find_renderer_claimed_list items key
  | _ => none

def find_renderer_claimed_fields (fields : JsonFields) (key : String) : Option Json :=
  match fields with
  | .nil => none
  | .cons k v rest =>
    if k == key && v.truthy then some v
    else
      match find_renderer_claimed v key with
      | some r => some r
      | none => find_renderer_claimed_fields rest key

def find_renderer_claimed_list (items : JsonList) (key : String) : Option Json :=
  match items with
  | .nil => none
  | .cons v rest =>
    match find_renderer_claimed v key with
    | some r => some r
    | none => find_renderer_claimed_list rest key

end

/-! ## `PlatformScraper._youtube_stats` (`src/bot.py` lines 162-198)

The outward effects — `_resolve_channel_id` (URL parsing plus the
external `yt_dlp` fallback), the HTTP round-trip and
`_extract_yt_initial_data` (regex extraction plus `json.loads` on the
page text) — enter as the environment; everything done with their
outcomes is translated from the source. -/

structure YtEnv where
  /-- Outcome of `_resolve_channel_id(url)`. -/
  resolvedId : Option String
  /-- `self.http.get(page_url, timeout=30)`: raised exception message, or
  the response status code. -/
  page : Except String Nat
  /-- Outcome of `_extract_yt_initial_data(response.text)`: the raised
  exception's message, or the parsed payload. -/
  extracted : Except String Json

def youtube_stats (env : YtEnv) : Except PyExc PRes :=
  match env.resolvedId with
  | none => .ok (errorRes "ID do canal do YouTube nao identificado.")
  | some channelId =>
    match env.page with
    | .error excMsg => .ok (errorRes excMsg)
    | .ok statusCode =>
      if statusCode ≠ 200 then
        .ok (errorRes ("YouTube respondeu com status " ++ toString statusCode ++ "."))
      else
        match env.extracted with
        | .error msg => .ok (errorRes msg)
        | .ok payload =>
          let about := (find_renderer payload "aboutChannelRenderer").getD Json.null
          if about.truthy = false then .ok (errorRes "Dados do canal nao encontrados.")
          else do
            let md ← about.pyGetD "metadata" (jobj [])
            let vm ← md.pyGetD "aboutChannelViewModel" (jobj [])
            let dcu ← vm.pyGet "displayCanonicalChannelUrl"
            let ccu ← vm.pyGet "canonicalChannelUrl"
            let identifier := if dcu.truthy then dcu else if ccu.truthy then ccu else Json.str channelId
            let sct ← vm.pyGet "subscriberCountText"
            let followers ← parse_count sct
            let vct ← vm.pyGet "videoCountText"
            let videos ← parse_count vct
            let wct ← vm.pyGet "viewCountText"
            let views ← parse_count wct
            pure { status := .ok, identifier := some identifier,
                   metrics := [("followers", optIntJson followers),
                               ("videos", optIntJson videos),
                               ("views", optIntJson views)],
                   message := none }

/-- `fetch_youtube_livecounts` (lines 127-131): `not_configured` when the
profile value is absent or empty (falsy), otherwise `_youtube_stats`. -/
def fetch_youtube (url : Option String) (env : YtEnv) : Except PyExc PRes :=
  match url with
  | none => .ok notConfiguredRes
  | some u => if u = "" then .ok notConfiguredRes else youtube_stats env

/-! ## TokCount primary strategy (`src/bot.py` lines 246-279, 337-355) -/

/-- An HTTP response as `_tokcount_get` consumes it: the status code and
the outcome of `response.json()` (`none` when the body fails to parse). -/
structure HttpResp where
  statusCode : Nat
  jsonBody : Option Json

/-- `_tokcount_get`: classify 401/403/429 as a temporary block before any
body parsing; let `raise_for_status` raise `HTTPError` on the remaining
4xx/5xx codes; then parse the body (`RuntimeError` when invalid); on a
falsy `success` field, a temporary block when `challenge` is truthy and
`RuntimeError` otherwise; else return the payload. -/
def tokcount_get (resp : HttpResp) : Except PyExc Json :=
  if resp.statusCode = 401 ∨ resp.statusCode = 403 ∨ resp.statusCode = 429 then
    .error (.tempBlock "TokCount bloqueou o acesso.")
  else if 400 ≤ resp.statusCode ∧ resp.statusCode < 600 then
    .error (.reqError ("HTTP error " ++ toString resp.statusCode))
  else
    match resp.jsonBody with
    | none => .error (.runtimeError "TokCount retornou resposta inválida.")
    | some payload => do
      let succ ← payload.pyGet "success"
      if succ.truthy then pure payload
      else do
        let msgVal ← payload.pyGet "message"
        let message := if msgVal.truthy then msgVal.pyStr else "TokCount retornou erro."
        let chal ← payload.pyGet "challenge"
        if chal.truthy then throw (.tempBlock message)
        else throw (.runtimeError message)

/-- Environment of `_tokcount_stats`: the two `self.http.get` calls may
themselves raise, or produce a response. -/
structure TkEnv where
  userResp : Except PyExc HttpResp
  statsResp : Except PyExc HttpResp

/-- `_tokcount_stats(username)`: resolve the user id (RuntimeError when
falsy), fetch the stats payload, and assemble the `"ok"` dict with the
raw payload values as metrics. -/
def tokcount_stats (username : String) (env : TkEnv) : Except PyExc PRes := do
  let userResp ← env.userResp
  let userPayload ← tokcount_get userResp
  let userId ← userPayload.pyGet "userId"
  if userId.truthy = false then
    throw (.runtimeError "TokCount nuo retornou o identificador do usuorio.")
  else do
    let statsResp ← env.statsResp
    let statsPayload ← tokcount_get statsResp
    let uname ← userPayload.pyGet "username"
    let followers ← statsPayload.pyGet "followerCount"
    let likes ← statsPayload.pyGet "likeCount"
    let following ← statsPayload.pyGet "followingCount"
    let videos ← statsPayload.pyGet "videoCount"
    pure { status := .ok,
           identifier := some (.str ("@" ++ (if uname.truthy then uname.pyStr else username))),
           metrics := [("followers", followers), ("likes", likes),
                       ("following", following), ("videos", videos)],
           message := none }

/-! ## TikTok web-scrape fallback (`src/bot.py` lines 281-335) -/

/-- `_normalize_tiktok_stat`: `None` stays absent; `int`/`float` (and
`bool`, a Python `int`) are truncated to int; anything else goes through
`str()` and raw digit extraction. -/
def normalize_tiktok_stat (v : Json) : Option Int :=
  match v with
  | .null => none
  | .num n => some n
  | .bool b => some (if b then 1 else 0)
  | other =>
    let digits := other.pyStr.toList.filter Char.isDigit
    if digits.isEmpty then none else some (natOfDigits digits)

/-- Outcome of the `__UNIVERSAL_DATA_FOR_REHYDRATION__` script-tag
extraction on the profile page HTML (regex plus `json.loads`). -/
inductive TtwExtract where
  | noMatch
  | badJson
  | parsed (data : Json)

/-- `_parse_tiktok_web_stats`: extraction failures raise `RuntimeError`;
then navigate `__DEFAULT_SCOPE__ → webapp.user-detail → userInfo → stats`
(and `→ user`) with a descriptive `RuntimeError` per missing level, and
normalize the four counters and the handle. -/
def parse_tiktok_web_stats (ext : TtwExtract) : Except PyExc (String × List (String × Json)) :=
  match ext with
  | .noMatch =>
    .error (.runtimeError "TokCount falhou e os dados da página do TikTok não foram encontrados.")
  | .badJson => .error (.runtimeError "Erro parseando os dados do TikTok.")
  | .parsed data => do
    let scope ← data.pyGetD "__DEFAULT_SCOPE__" (jobj [])
    let userDetail ← scope.pyGet "webapp.user-detail"
    if userDetail.truthy = false then
      throw (.runtimeError "TikTok não retornou os dados esperados (webapp.user-detail ausente).")
    else do
      let userInfo ← userDetail.pyGetD "userInfo" (jobj [])
      let stats ← userInfo.pyGet "stats"
      if stats.truthy = false then
        throw (.runtimeError "TikTok não retornou as estatísticas do usuário.")
      else do
        let user ← userInfo.pyGetD "user" (jobj [])
        let uid ← user.pyGet "uniqueId"
        let identifier := if uid.truthy then uid.pyStr else ""
        let fc ← stats.pyGet "followerCount"
        let hc ← stats.pyGet "heartCount"
        let h ← stats.pyGet "heart"
        let heart := if hc.truthy then hc else h
        let fg ← stats.pyGet "followingCount"
        let vc ← stats.pyGet "videoCount"
        pure (identifier,
              [("followers", optIntJson (normalize_tiktok_stat fc)),
               ("likes", optIntJson (normalize_tiktok_stat heart)),
               ("following", optIntJson (normalize_tiktok_stat fg)),
               ("videos", optIntJson (normalize_tiktok_stat vc))])

/-- Environment of `_tiktok_stats_page`: the `self.http.get` call may
raise, or produce a status code and the page's extraction outcome. -/
structure TtwEnv where
  pageResult : Except PyExc (Nat × TtwExtract)

/-- `_tiktok_stats_page(username)`: non-200 raises `RuntimeError`, then
parse the page and assemble the `"ok"` dict. -/
def tiktok_stats_page (username : String) (env : TtwEnv) : Except PyExc PRes := do
  let (statusCode, ext) ← env.pageResult
  if statusCode ≠ 200 then
    throw (.runtimeError ("TikTok respondeu com status " ++ toString statusCode ++ "."))
  else do
    let (identifier, stats) ← parse_tiktok_web_stats ext
    pure { status := .ok,
           identifier := some (.str ("@" ++ (if identifier ≠ "" then identifier else username))),
           metrics := stats,
           message := none }

/-! ## The primary/fallback composition (`src/bot.py` lines 357-381) -/

def PyExc.isTempBlock : PyExc → Bool
  | .tempBlock _ => true
  | _ => false

/-- `_tiktok_stats`: return the primary's result when it succeeds; when it
raises, run the fallback; when the fallback also raises, the final dict is
`blocked` with the primary's message when the primary raised
`TemporaryBlockError`, and `error` with the fallback exception's message
otherwise. -/
def tiktok_stats_combine (primary : Except PyExc PRes) (fallback : Except PyExc PRes) : PRes :=
  match primary with
  | .ok r => r
  | .error primExc =>
    match fallback with
    | .ok r => r
    | .error fallbackExc =>
      match primExc with
      | .tempBlock m => blockedRes m
      | _ => errorRes fallbackExc.toMessage

def tiktok_stats (username : String) (tkEnv : TkEnv) (ttwEnv : TtwEnv) : PRes :=
  tiktok_stats_combine (tokcount_stats username tkEnv) (tiktok_stats_page username ttwEnv)

/-- `fetch_tiktok` (lines 133-137): `not_configured` when the profile
value is absent or empty (falsy), otherwise `_tiktok_stats`. -/
def fetch_tiktok (username : Option String) (tkEnv : TkEnv) (ttwEnv : TtwEnv) : PRes :=
  match username with
  | none => notConfiguredRes
  | some u => if u = "" then notConfiguredRes else tiktok_stats u tkEnv ttwEnv

/-! ## `StatsCollector._wrap` and `_collect` (`src/bot.py` lines 432-449) -/

/-- `_wrap`: convert an escaped `TemporaryBlockError` into a `blocked`
dict and any other exception into an `error` dict. -/
def wrap (outcome : Except PyExc PRes) : PRes :=
  match outcome with
  | .ok d => d
  | .error (.tempBlock m) => blockedRes m
  | .error exc => errorRes exc.toMessage

/-- `_collect`: one entry per platform (`fetch_tiktok` never raises, so
its `_wrap` is the identity on results; the gather order is the list
order of the task list). -/
def collect (url : Option String) (ytEnv : YtEnv)
    (username : Option String) (tkEnv : TkEnv) (ttwEnv : TtwEnv) :
    List (String × CollectVal PRes) :=
  [("youtube", .res (wrap (fetch_youtube url ytEnv))),
   ("tiktok", .res (fetch_tiktok username tkEnv ttwEnv))]

/-- `_should_cache`'s per-entry test, `payload.get("status") != "ok"`. -/
def statusOk (p : PRes) : Bool := p.status = PStatus.ok

/-! ## `PlatformScraper._tokcount_headers` (`src/bot.py` lines 246-261)

The hash primitives are `hashlib` library calls: they enter as function
parameters (`sha256` produces a digest byte string, the two hex digests
produce strings).  The timestamp string `str(int(time.time() * 1000))` is
the nondeterministic input. -/

def tokcount_headers (sha256digest : String → List Nat)
    (sha384hexdigest : List Nat → String) (ripemd160hexdigest : String → String)
    (userAgent : String) (includeIdentity : Bool) (timestamp : String) :
    List (String × String) :=
  let headers :=
    [("Origin", "https://tokcount.com"),
     ("Referer", "https://tokcount.com/"),
     ("User-Agent", userAgent),
     ("x-midas", sha384hexdigest (sha256digest (timestamp ++ "64"))),
     ("x-ajay", ripemd160hexdigest timestamp),
     ("x-catto", timestamp)]
  if includeIdentity then
    headers ++ [("x-service", "TokCount"), ("x-user-agent", userAgent),
                ("x-antiabuse-ip", "1.1.1.1")]
  else headers

/-! ## Derived notions used by the claim statements -/

def isOkResult (e : Except PyExc (Option Int)) : Bool :=
  match e with
  | .ok _ => true
  | .error _ => false

/-- The platform entries of a results mapping (its dict-shaped values). -/
def platformEntries (results : List (String × CollectVal PRes)) : List PRes :=
  results.filterMap fun kv =>
    match kv.2 with
    | .res p => some p
    | .time _ => none

/-- The inputs on which `_parse_count` completes without raising: falsy
input; or a first token whose comma-stripped form has no leading
digit-or-dot prefix (raw digit extraction); or a leading prefix that is a
valid float literal (at least one digit, at most one dot) whose scaled
value does not overflow the double range. -/
def parse_count_ok_cond (s : String) : Bool :=
  if s = "" then true
  else
    match pySplitTokens s.toList with
    | [] => false
    | tok :: _ =>
      let candidate := removeChar ',' (removeChar ' ' (removeChar '\xa0' tok))
      let numPart := candidate.takeWhile isNumChar
      match numPart with
      | [] => true
      | _ :: _ =>
        validFloatChars numPart &&
          !((pyFloatOfNumChars numPart).mulNat
              (multiplierOf ((candidate.drop numPart.length).head?.filter suffixClass))).isInf

/-- The result-shape invariant the produced dicts actually satisfy:
metrics populated and no message for `ok`; a message and no metrics for
`blocked` and `error`; neither for `not_configured`. -/
def amendedInvariant (p : PRes) : Prop :=
  match p.status with
  | .ok => p.metrics ≠ [] ∧ p.message = none
  | .blocked => p.metrics = [] ∧ p.message.isSome = true
  | .error => p.metrics = [] ∧ p.message.isSome = true
  | .notConfigured => p.metrics = [] ∧ p.message = none

/-- Concrete sample environments (used by closed witness statements). -/
def ytEnvSample : YtEnv := ⟨some "UC0123456789012345678901", .ok 200, .error "ytInitialData nao encontrado."⟩

def tkEnvSample : TkEnv := ⟨.error (.reqError "connection reset"), .error (.reqError "connection reset")⟩

def ttwEnvSample : TtwEnv := ⟨.ok (200, .noMatch)⟩

/-- A tree in which the sentinel key occurs first (in document order) with
an empty — falsy — value directly at the root, and again deeper with a
truthy value. -/
def c9payload : Json :=
  jobj [("aboutChannelRenderer", jobj []),
        ("b", jobj [("aboutChannelRenderer", jobj [("x", Json.str "1")])])]

/-! # Theorems -/

/-! ## Helper lemmas -/

theorem statusOk_iff (p : PRes) :
    statusOk p = true ↔
      p.status ≠ PStatus.blocked ∧ p.status ≠ PStatus.error ∧ p.status ≠ PStatus.notConfigured := by
  cases h : p.status <;> simp [statusOk, h]

theorem should_cache_iff (results : List (String × CollectVal PRes)) :
    should_cache statusOk results = true ↔
      ∀ p ∈ platformEntries results,
        p.status ≠ PStatus.blocked ∧ p.status ≠ PStatus.error ∧ p.status ≠ PStatus.notConfigured := by
  induction results with
  | nil => simp [should_cache, platformEntries]
  | cons kv rest ih =>
    obtain ⟨k, v⟩ := kv
    cases v with
    | time t =>
      simpa [should_cache, platformEntries, List.all_cons] using ih
    | res p =>
      simp only [should_cache, platformEntries, List.all_cons, List.filterMap_cons] at ih ⊢
      rw [Bool.and_eq_true]
      simp only [List.mem_cons, forall_eq_or_imp]
      rw [statusOk_iff]
      exact and_congr_right fun _ => ih

/-! ## C3: the TTL-gated cache lookup -/

/-- C3: for a snapshot `data` stored at time `s`, `get` at time `now`
returns it exactly when `now - s ≤ ttl` (the boundary `now - s = ttl` is
still a hit) and behaves as empty otherwise; a fresh cache always misses.
(`get` contains no assignment in the source: it is a pure read, so the
stored entry is untouched by lookups.) -/
theorem statscache_get_ttl_gated (c : StatsCache PRes)
    (data : List (String × CollectVal PRes)) (s now : Int) (hne : data ≠ []) :
    ((c.set s data).get now = (if now - s ≤ c.ttl then some data else none)) ∧
    (∀ ttl now2, (StatsCache.init PRes ttl).get now2 = none) := by
  constructor
  · cases data with
    | nil => exact absurd rfl hne
    | cons d ds =>
      simp only [StatsCache.set, StatsCache.get]
      by_cases h : now - s ≤ c.ttl
      · rw [if_neg (by omega), if_pos h]
      · rw [if_pos (by omega), if_neg h]
  · intro ttl now2; rfl

theorem statscache_get_ttl_gated_witness :
    (((StatsCache.init PRes 600).set 5 [("generated_at", CollectVal.time 5)]).get 605 =
      some [("generated_at", CollectVal.time 5)]) ∧
    (StatsCache.init PRes 600).get 0 = none := by
  have h := statscache_get_ttl_gated (StatsCache.init PRes 600)
    [("generated_at", CollectVal.time 5)] 5 605 (by simp)
  exact ⟨h.1.trans (if_pos (by norm_num [StatsCache.init])), h.2 600 0⟩

/-! ## C7: the signed-header scheme -/

/-- C7: for every choice of hash primitives and every timestamp string
`t`, the produced headers are uniquely determined, with `x-midas` the
second-stage SHA-384 of the first-stage SHA-256 digest of `t ++ "64"`,
`x-ajay` the single RIPEMD-160 hex digest of the raw `t`, and `x-catto`
carrying `t` itself verbatim. -/
theorem tokcount_headers_scheme (sha256digest : String → List Nat)
    (sha384hexdigest : List Nat → String) (ripemd160hexdigest : String → String)
    (ua : String) (incl : Bool) (t : String) :
    ((tokcount_headers sha256digest sha384hexdigest ripemd160hexdigest ua incl t).lookup "x-midas" =
        some (sha384hexdigest (sha256digest (t ++ "64")))) ∧
    ((tokcount_headers sha256digest sha384hexdigest ripemd160hexdigest ua incl t).lookup "x-ajay" =
        some (ripemd160hexdigest t)) ∧
    ((tokcount_headers sha256digest sha384hexdigest ripemd160hexdigest ua incl t).lookup "x-catto" =
        some t) := by
  cases incl <;> simp [tokcount_headers, List.lookup]

/-! ## C2: the primary/fallback composition for TikTok -/

/-- C2: `_tiktok_stats` is the composition of the TokCount primary and the
web-scrape fallback; a primary success is returned with the fallback never
influencing the outcome; a primary failure of any kind falls through to
the fallback; and when the fallback also fails the result is `blocked`
with the primary's message when the primary raised the temporary-block
error, and `error` with the fallback's exception message otherwise. -/
theorem tiktok_chain_composition :
    (∀ u tk tw, tiktok_stats u tk tw =
        tiktok_stats_combine (tokcount_stats u tk) (tiktok_stats_page u tw)) ∧
    (∀ r fb, tiktok_stats_combine (.ok r) fb = r) ∧
    (∀ e r, tiktok_stats_combine (.error e) (.ok r) = r) ∧
    (∀ e f, tiktok_stats_combine (.error e) (.error f) =
        match e with
        | .tempBlock m => blockedRes m
        | _ => errorRes f.toMessage) := by
  refine ⟨fun _ _ _ => rfl, fun _ _ => rfl, fun _ _ => rfl, fun e f => ?_⟩
  cases e <;> rfl

/-! ## C1: cache-worthiness of a collection cycle -/

/-- C1: on a cache miss, the snapshot assembled from a collection cycle is
returned in every case, and it is stored in the cache exactly when no
platform entry has status `blocked`, `error` or `not_configured`;
otherwise the cache is left unchanged. -/
theorem collector_caches_iff_all_ok (c : StatsCache PRes) (now genAt setNow : Int)
    (url : Option String) (ytEnv : YtEnv) (username : Option String) (tkEnv : TkEnv)
    (ttwEnv : TtwEnv) (hmiss : c.get now = none) :
    get_stats statusOk c now (collect url ytEnv username tkEnv ttwEnv) genAt setNow =
      (let results := collect url ytEnv username tkEnv ttwEnv ++
        [("generated_at", CollectVal.time genAt)]
       if ∀ p ∈ platformEntries results,
            p.status ≠ PStatus.blocked ∧ p.status ≠ PStatus.error ∧
              p.status ≠ PStatus.notConfigured
       then (results, c.set setNow results)
       else (results, c)) := by
  simp only [get_stats, hmiss]
  by_cases h : ∀ p ∈ platformEntries (collect url ytEnv username tkEnv ttwEnv ++
      [("generated_at", CollectVal.time genAt)]),
      p.status ≠ PStatus.blocked ∧ p.status ≠ PStatus.error ∧ p.status ≠ PStatus.notConfigured
  · rw [if_pos ((should_cache_iff _).mpr h), if_pos h]
  · rw [if_neg (fun hb => h ((should_cache_iff _).mp hb)), if_neg h]

theorem collector_caches_iff_all_ok_witness :
    get_stats statusOk (StatsCache.init PRes 600) 0
        (collect none ytEnvSample none tkEnvSample ttwEnvSample) 1 2 =
      (let results := collect none ytEnvSample none tkEnvSample ttwEnvSample ++
        [("generated_at", CollectVal.time 1)]
       if ∀ p ∈ platformEntries results,
            p.status ≠ PStatus.blocked ∧ p.status ≠ PStatus.error ∧
              p.status ≠ PStatus.notConfigured
       then (results, (StatsCache.init PRes 600).set 2 results)
       else (results, StatsCache.init PRes 600)) :=
  collector_caches_iff_all_ok (StatsCache.init PRes 600) 0 1 2 none ytEnvSample none
    tkEnvSample ttwEnvSample rfl

/-! ## C6: TokCount response classification -/

theorem pyGet_obj (fields : JsonFields) (k : String) :
    (Json.obj fields).pyGet k = .ok ((fields.lookup k).getD Json.null) := by
  cases h : fields.lookup k <;> simp [Json.pyGet, h]

/-- C6 counterexample: an HTTP 201 response with a parseable successful
body is accepted as a success by `_tokcount_get`, while the claim says any
non-200 status is an error. -/
theorem tokcount_non200_ok_counterexample :
    tokcount_get ⟨201, some (jobj [("success", Json.bool true)])⟩ =
      .ok (jobj [("success", Json.bool true)]) := rfl

/-- C6 amended: 401/403/429 are classified as a temporary block before any
body parsing; the remaining 4xx/5xx codes raise the HTTP error (also
before body parsing); for every other status — 200 or not — the body is
parsed: an unparsable body is an error; a parsed dict body with falsy
`success` is a temporary block when `challenge` is truthy and an error
otherwise, and is accepted as a success when `success` is truthy. -/
theorem tokcount_get_classification (resp : HttpResp) :
    (resp.statusCode = 401 ∨ resp.statusCode = 403 ∨ resp.statusCode = 429 →
      tokcount_get resp = .error (.tempBlock "TokCount bloqueou o acesso.")) ∧
    (¬(resp.statusCode = 401 ∨ resp.statusCode = 403 ∨ resp.statusCode = 429) →
      400 ≤ resp.statusCode ∧ resp.statusCode < 600 →
      tokcount_get resp = .error (.reqError ("HTTP error " ++ toString resp.statusCode))) ∧
    (¬(resp.statusCode = 401 ∨ resp.statusCode = 403 ∨ resp.statusCode = 429) →
      ¬(400 ≤ resp.statusCode ∧ resp.statusCode < 600) → resp.jsonBody = none →
      tokcount_get resp = .error (.runtimeError "TokCount retornou resposta inválida.")) ∧
    (∀ fields, ¬(resp.statusCode = 401 ∨ resp.statusCode = 403 ∨ resp.statusCode = 429) →
      ¬(400 ≤ resp.statusCode ∧ resp.statusCode < 600) →
      resp.jsonBody = some (Json.obj fields) →
      tokcount_get resp =
        (if ((fields.lookup "success").getD Json.null).truthy then .ok (Json.obj fields)
         else
           let message :=
             if ((fields.lookup "message").getD Json.null).truthy
             then ((fields.lookup "message").getD Json.null).pyStr
             else "TokCount retornou erro."
           if ((fields.lookup "challenge").getD Json.null).truthy then
             .error (.tempBlock message)
           else .error (.runtimeError message))) := by
  refine ⟨fun h1 => ?_, fun h1 h2 => ?_, fun h1 h2 h3 => ?_, fun fields h1 h2 h3 => ?_⟩
  · simp only [tokcount_get, if_pos h1]
  · simp only [tokcount_get, if_neg h1, if_pos h2]
  · simp only [tokcount_get, if_neg h1, if_neg h2, h3]
  · simp only [tokcount_get, if_neg h1, if_neg h2, h3]
    simp only [bind, Except.bind, pyGet_obj]
    split
    · rfl
    · rfl

theorem tokcount_get_classification_witness :
    tokcount_get ⟨429, none⟩ = .error (.tempBlock "TokCount bloqueou o acesso.") :=
  (tokcount_get_classification ⟨429, none⟩).1 (Or.inr (Or.inr rfl))

/-! ## C4: unit-suffix normalization -/

set_option maxRecDepth 8192 in
/-- C4: the spec's examples hold ("12.3K" → 12300, "1,234,567" → 1234567,
"2M" → 2000000) and the lowercase forms of `K` and `B` are recognized —
but lowercase `m` is not: the source's suffix character class `[KMkMbB]`
repeats `M` instead of containing `m`, so "2m" is scaled by 1 and yields
2, not 2000000.  This exhibits the failing input of the claim. -/
theorem parse_count_suffix_examples :
    parse_count (Json.str "12.3K") = .ok (some 12300) ∧
    parse_count (Json.str "1,234,567") = .ok (some 1234567) ∧
    parse_count (Json.str "2M") = .ok (some 2000000) ∧
    parse_count (Json.str "12.3k") = .ok (some 12300) ∧
    parse_count (Json.str "2b") = .ok (some 2000000000) ∧
    parse_count (Json.str "2m") = .ok (some 2) :=
  ⟨by rfl, by rfl, by rfl, by rfl, by rfl, by rfl⟩

/-! ## C5: totality of count normalization -/

/-- C5 counterexample: `_parse_count` is not failure-free — a number part
with two decimal points makes the embedded `float()` raise `ValueError`,
and a whitespace-only input raises `IndexError` from `text.split()[0]`
(`str.split()` also separates on the ASCII file/group/record/unit
separators such as `\x1c`, so those inputs raise too). -/
theorem parse_count_raises_counterexample :
    parse_count (Json.str "1.2.3") = .error (.valueError "could not convert string to float") ∧
    parse_count (Json.str " ") = .error (.indexError "list index out of range") ∧
    parse_count (Json.str "\x1c") = .error (.indexError "list index out of range") :=
  ⟨by rfl, by rfl, by rfl⟩

/-- C5 amended, helper: the truncation step succeeds exactly on finite
doubles. -/
theorem isOkResult_trunc_match (x : PyFloat) :
    isOkResult (match x.truncToNat with
                | .ok n => .ok (some (n : Int))
                | .error e => .error e) = !x.isInf := by
  cases x with
  | inf => rfl
  | finite n e =>
    simp only [PyFloat.truncToNat, PyFloat.isInf]
    split
    · rfl
    · rename_i heq
      split at heq <;> exact Except.noConfusion heq

theorem parse_count_str_of_ne_empty (s : String) (hs : s ≠ "") :
    parse_count (Json.str s) = parse_count_str s := by
  simp [parse_count, Json.truthy, hs]

/-- C5 amended: over the modelled repertoire (ASCII, NEL, NBSP — the
code points on which the embedding's whitespace, digit and `\d`
predicates coincide with CPython's), `_parse_count` returns an integer or
absent exactly when the input is falsy, or its first whitespace token has
no leading digit-or-dot prefix after comma stripping (raw digit
extraction, absent when no digits), or that prefix is a well-formed float
literal (at least one digit, at most one dot) whose scaled value stays
below the double-overflow threshold; it raises on the rest (whitespace-
only input, malformed number part, double overflow), and unparsable text
yields absent, never zero.  The repertoire hypothesis scopes the
characterization to where the embedding speaks for the program: beyond
it the code has further raising inputs (other Unicode spaces are
`split()` separators; `isdigit()`-true non-decimal characters such as `²`
make the raw-digit `int()` raise `ValueError`; Unicode decimal digits are
matched by `\d` and then rejected by `float()`). -/
theorem parse_count_ok_characterization :
    (∀ s : String, (∀ c ∈ s.toList, modelledChar c = true) →
        isOkResult (parse_count (Json.str s)) = parse_count_ok_cond s) ∧
    parse_count Json.null = .ok none ∧
    parse_count (Json.str "") = .ok none ∧
    parse_count (Json.str "abc") = .ok none := by
  refine ⟨fun s _ => ?_, rfl, rfl, rfl⟩
  by_cases hs : s = ""
  · subst hs; rfl
  · rw [parse_count_str_of_ne_empty s hs]
    simp only [parse_count_ok_cond, if_neg hs]
    unfold parse_count_str
    cases h1 : pySplitTokens s.toList with
    | nil => rfl
    | cons tok rest =>
      simp only
      cases h2 : (removeChar ',' (removeChar ' ' (removeChar '\xa0' tok))).takeWhile isNumChar with
      | nil =>
        simp only
        split <;> rfl
      | cons c cs =>
        simp only
        by_cases hv : validFloatChars (c :: cs) = true
        · rw [if_pos hv, hv, Bool.true_and]
          exact isOkResult_trunc_match _
        · rw [if_neg hv]
          simp only [Bool.not_eq_true] at hv
          rw [hv, Bool.false_and]
          rfl

theorem parse_count_ok_characterization_witness :
    isOkResult (parse_count (Json.str "12 345")) = parse_count_ok_cond "12 345" :=
  parse_count_ok_characterization.1 "12 345" (by decide)

/-! ## C10: truncation of the scaled value -/

/-- Truncation toward zero of a non-negative finite double is the floor of
its exact rational value. -/
theorem truncToNat_floor (n : Nat) (e : Int) :
    ∃ k : Nat, (PyFloat.finite n e).truncToNat = .ok k ∧
      (k : Int) = ⌊(PyFloat.finite n e).toRat⌋ := by
  simp only [PyFloat.truncToNat, PyFloat.toRat]
  by_cases h : 0 ≤ e
  · refine ⟨n * 2 ^ e.toNat, by rw [if_pos h], ?_⟩
    conv_rhs => rw [show e = (e.toNat : ℤ) from (Int.toNat_of_nonneg h).symm, zpow_natCast]
    rw [show ((n : ℚ) * 2 ^ e.toNat) = ((n * 2 ^ e.toNat : ℕ) : ℚ) by push_cast; ring]
    rw [Int.floor_natCast]
  · refine ⟨n / 2 ^ (-e).toNat, by rw [if_neg h], ?_⟩
    conv_rhs => rw [show e = -(((-e).toNat : ℕ) : ℤ) by omega, zpow_neg, zpow_natCast,
      ← div_eq_mul_inv]
    rw [show ((n : ℚ) / 2 ^ (-e).toNat) = (((n : ℤ) : ℚ) / ((2 ^ (-e).toNat : ℕ) : ℚ)) by
      push_cast; ring]
    rw [Rat.floor_intCast_div_natCast]
    rw [Int.natCast_div]

theorem foldr_pySplitStep_nospace (cs : List Char) (hne : cs ≠ [])
    (hns : ∀ c ∈ cs, isPySpace c = false) : cs.foldr pySplitStep [] = [cs] := by
  induction cs with
  | nil => exact absurd rfl hne
  | cons c rest ih =>
    rw [List.foldr_cons]
    by_cases hr : rest = []
    · subst hr
      simp [pySplitStep, hns c (List.mem_cons_self c [])]
    · rw [ih hr (fun x hx => hns x (List.mem_cons_of_mem c hx))]
      simp [pySplitStep, hns c (List.mem_cons_self c rest)]

theorem pySplitTokens_single (cs : List Char) (hne : cs ≠ [])
    (hns : ∀ c ∈ cs, isPySpace c = false) : pySplitTokens cs = [cs] := by
  rw [pySplitTokens, foldr_pySplitStep_nospace cs hne hns]
  simp [hne]

theorem removeChar_id (ch : Char) (cs : List Char) (h : ∀ c ∈ cs, c ≠ ch) :
    removeChar ch cs = cs := by
  unfold removeChar
  apply List.filter_eq_self.mpr
  intro a ha
  simpa using h a ha

theorem takeWhile_all_append (np tail : List Char) (hnp : ∀ c ∈ np, isNumChar c = true)
    (htail : ∀ h t, tail = h :: t → isNumChar h = false) :
    (np ++ tail).takeWhile isNumChar = np := by
  induction np with
  | nil =>
    cases tail with
    | nil => rfl
    | cons h t => simp [List.takeWhile_cons, htail h t rfl]
  | cons c rest ih =>
    rw [List.cons_append, List.takeWhile_cons,
      if_pos (hnp c (List.mem_cons_self c rest)),
      ih (fun x hx => hnp x (List.mem_cons_of_mem c hx))]

theorem mem_pyWhitespace_of_isPySpace (c : Char) (h : isPySpace c = true) :
    c ∈ pyWhitespace := by
  simp only [isPySpace] at h
  exact List.mem_of_elem_eq_true h

theorem isNumChar_not_space (c : Char) (h : isNumChar c = true) : isPySpace c = false := by
  by_contra hsp
  rw [Bool.not_eq_false] at hsp
  have hall : ∀ x ∈ pyWhitespace, isNumChar x = false := by decide
  rw [hall c (mem_pyWhitespace_of_isPySpace c hsp)] at h
  exact Bool.noConfusion h

theorem isNumChar_not_stripped (c : Char) (h : isNumChar c = true) :
    c ≠ '\xa0' ∧ c ≠ ' ' ∧ c ≠ ',' := by
  refine ⟨?_, ?_, ?_⟩ <;> intro h1 <;> subst h1 <;> exact absurd h (by decide)

theorem suffixClass_not_space (c : Char) (h : suffixClass c = true) : isPySpace c = false := by
  by_contra hsp
  rw [Bool.not_eq_false] at hsp
  have hall : ∀ x ∈ pyWhitespace, suffixClass x = false := by decide
  rw [hall c (mem_pyWhitespace_of_isPySpace c hsp)] at h
  exact Bool.noConfusion h

theorem suffixClass_not_stripped (c : Char) (h : suffixClass c = true) :
    c ≠ '\xa0' ∧ c ≠ ' ' ∧ c ≠ ',' := by
  simp only [suffixClass, Bool.or_eq_true, beq_iff_eq] at h
  rcases h with ((((h1 | h1) | h1) | h1) | h1) <;> subst h1 <;>
    exact ⟨by decide, by decide, by decide⟩

theorem suffixClass_not_numChar (c : Char) (h : suffixClass c = true) :
    isNumChar c = false := by
  simp only [suffixClass, Bool.or_eq_true, beq_iff_eq] at h
  rcases h with ((((h1 | h1) | h1) | h1) | h1) <;> subst h1 <;> decide

/-- C10 counterexample: the code computes the scaled value in double
precision, so it does not return the exact floor of `n * m` for every
decimal `n`: for "1.001K" it yields 1000, while `⌊1.001 * 1000⌋ = 1001`. -/
theorem parse_count_not_exact_floor :
    parse_count (Json.str "1.001K") = .ok (some 1000) ∧
    ⌊(1001 : ℚ) / 1000 * 1000⌋ = (1001 : Int) := by
  refine ⟨by rfl, ?_⟩
  norm_num

/-- C10 amended: for every well-formed number-plus-suffix token the
result is the scaled double truncated toward zero, which — the value
being non-negative — is the exact floor of the rational value of the
*double-rounded* product `float(n) * m` (not of the exact product
`n * m`, from which it can differ by the double roundings). -/
theorem parse_count_scaled_truncation (numPart : List Char) (suf : Option Char)
    (hne : numPart ≠ [])
    (hnc : ∀ c ∈ numPart, isNumChar c = true)
    (hv : validFloatChars numPart = true)
    (hsuf : ∀ k, suf = some k → suffixClass k = true)
    (hfin : ((pyFloatOfNumChars numPart).mulNat (multiplierOf suf)).isInf = false) :
    parse_count (Json.str (String.mk (numPart ++ suf.toList))) =
      .ok (some ⌊((pyFloatOfNumChars numPart).mulNat (multiplierOf suf)).toRat⌋) := by
  have hs : String.mk (numPart ++ suf.toList) ≠ "" := by
    intro hstr
    have h0 : numPart ++ suf.toList = ([] : List Char) := congrArg String.data hstr
    exact hne (List.append_eq_nil.mp h0).1
  have hchars : ∀ c ∈ numPart ++ suf.toList, isPySpace c = false := by
    intro c hc
    rcases List.mem_append.mp hc with hcn | hcs
    · exact isNumChar_not_space c (hnc c hcn)
    · cases suf with
      | none => simp [Option.toList] at hcs
      | some k =>
        have hck : c = k := by simpa [Option.toList] using hcs
        subst hck
        exact suffixClass_not_space c (hsuf c rfl)
  have hstrip : ∀ c ∈ numPart ++ suf.toList, c ≠ '\xa0' ∧ c ≠ ' ' ∧ c ≠ ',' := by
    intro c hc
    rcases List.mem_append.mp hc with hcn | hcs
    · exact isNumChar_not_stripped c (hnc c hcn)
    · cases suf with
      | none => simp [Option.toList] at hcs
      | some k =>
        have hck : c = k := by simpa [Option.toList] using hcs
        subst hck
        exact suffixClass_not_stripped c (hsuf c rfl)
  rw [parse_count_str_of_ne_empty _ hs]
  simp only [parse_count_str]
  rw [show (String.mk (numPart ++ suf.toList)).toList = numPart ++ suf.toList from rfl]
  rw [pySplitTokens_single _ (fun hx => hne (List.append_eq_nil.mp hx).1) hchars]
  simp only
  rw [removeChar_id '\xa0' _ (fun c hc => (hstrip c hc).1)]
  rw [removeChar_id ' ' _ (fun c hc => (hstrip c hc).2.1)]
  rw [removeChar_id ',' _ (fun c hc => (hstrip c hc).2.2)]
  rw [takeWhile_all_append numPart suf.toList hnc (fun h t ht => by
    cases suf with
    | none => exact absurd ht (by simp [Option.toList])
    | some k =>
      have hhk : h = k := by
        have := congrArg List.head? ht
        simpa [Option.toList] using this.symm
      subst hhk
      exact suffixClass_not_numChar h (hsuf h rfl))]
  cases hnp : numPart with
  | nil => exact absurd hnp hne
  | cons c cs =>
    simp only
    rw [show ((c :: cs) ++ suf.toList).drop (c :: cs).length = suf.toList from
      List.drop_left _ _]
    have hsufeq : suf.toList.head?.filter suffixClass = suf := by
      cases suf with
      | none => rfl
      | some k => simp [Option.toList, Option.filter, hsuf k rfl]
    rw [hsufeq]
    rw [if_pos (hnp ▸ hv)]
    rw [← hnp]
    cases hsc : (pyFloatOfNumChars numPart).mulNat (multiplierOf suf) with
    | inf => rw [hsc] at hfin; exact absurd hfin (by simp [PyFloat.isInf])
    | finite n' e' =>
      obtain ⟨k, hk, hkf⟩ := truncToNat_floor n' e'
      rw [hk]
      show Except.ok (some (k : Int)) = Except.ok (some ⌊(PyFloat.finite n' e').toRat⌋)
      rw [hkf]

theorem parse_count_scaled_truncation_witness :
    parse_count (Json.str (String.mk (['1', '.', '2', '3', '4', '5'] ++ (some 'K').toList))) =
      .ok (some ⌊((pyFloatOfNumChars ['1', '.', '2', '3', '4', '5']).mulNat
        (multiplierOf (some 'K'))).toRat⌋) :=
  parse_count_scaled_truncation ['1', '.', '2', '3', '4', '5'] (some 'K')
    (by decide) (by decide) (by decide)
    (fun k hk => by injection hk with h; subst h; decide)
    (by rfl)

/-! ## C9: the recursive "about" renderer search -/

theorem lookup_falsy (key : String) : ∀ (fields : JsonFields),
    allOccNotTruthyFields key fields = true →
    ∀ v, fields.lookup key = some v → v.truthy = false
  | .nil, _, v, hv => by simp [JsonFields.lookup] at hv
  | .cons k val rest, h, v, hv => by
    simp only [allOccNotTruthyFields, Bool.and_eq_true] at h
    simp only [JsonFields.lookup] at hv
    by_cases hk : (k == key) = true
    · rw [if_pos hk] at hv
      have hveq : val = v := Option.some.inj hv
      subst hveq
      rcases Bool.or_eq_true_iff.mp h.1.1 with h1 | h1
      · exact absurd hk (by simpa using h1)
      · simpa using h1
    · rw [if_neg hk] at hv
      exact lookup_falsy key rest h.2 v hv

mutual

theorem find_renderer_falsy : ∀ (key : String) (obj : Json),
    allOccNotTruthy key obj = true →
    ∀ r, find_renderer obj key = some r → r.truthy = false
  | key, .null, _, r, hf => by simp [find_renderer] at hf
  | key, .bool b, _, r, hf => by simp [find_renderer] at hf
  | key, .num n, _, r, hf => by simp [find_renderer] at hf
  | key, .str s, _, r, hf => by simp [find_renderer] at hf
  | key, .arr items, h, r, hf =>
    find_renderer_list_falsy key items (by simpa [allOccNotTruthy] using h) r
      (by simpa [find_renderer] using hf)
  | key, .obj fields, h, r, hf => by
    have h' : allOccNotTruthyFields key fields = true := by
      simpa [allOccNotTruthy] using h
    simp only [find_renderer] at hf
    cases hlk : fields.lookup key with
    | some v =>
      simp only [hlk] at hf
      cases hf
      exact lookup_falsy key fields h' r hlk
    | none =>
      simp only [hlk] at hf
      exact find_renderer_fields_falsy key fields h' r hf

theorem find_renderer_fields_falsy : ∀ (key : String) (fields : JsonFields),
    allOccNotTruthyFields key fields = true →
    ∀ r, find_renderer_fields fields key = some r → r.truthy = false
  | key, .nil, _, r, hf => by simp [find_renderer_fields] at hf
  | key, .cons k val rest, h, r, hf => by
    simp only [allOccNotTruthyFields, Bool.and_eq_true] at h
    simp only [find_renderer_fields] at hf
    cases hrec : find_renderer val key with
    | some r0 =>
      have hval : r0.truthy = false := find_renderer_falsy key val h.1.2 r0 hrec
      simp only [hrec, hval] at hf
      exact find_renderer_fields_falsy key rest h.2 r hf
    | none =>
      simp only [hrec] at hf
      exact find_renderer_fields_falsy key rest h.2 r hf

theorem find_renderer_list_falsy : ∀ (key : String) (items : JsonList),
    allOccNotTruthyList key items = true →
    ∀ r, find_renderer_list items key = some r → r.truthy = false
  | key, .nil, _, r, hf => by simp [find_renderer_list] at hf
  | key, .cons val rest, h, r, hf => by
    simp only [allOccNotTruthyList, Bool.and_eq_true] at h
    simp only [find_renderer_list] at hf
    cases hrec : find_renderer val key with
    | some r0 =>
      have hval : r0.truthy = false := find_renderer_falsy key val h.1 r0 hrec
      simp only [hrec, hval] at hf
      exact find_renderer_list_falsy key rest h.2 r hf
    | none =>
      simp only [hrec] at hf
      exact find_renderer_list_falsy key rest h.2 r hf

end

/-- C9 counterexample: the search is not "first occurrence in depth-first
order skipping falsy occurrences": a falsy value sitting directly under
the root is returned as-is (stopping the search) even though a truthy
occurrence exists deeper, and the whole video-channel fetch then errors.
The claim-described search would return the deeper truthy value. -/
theorem find_renderer_order_counterexample :
    find_renderer c9payload "aboutChannelRenderer" = some (jobj []) ∧
    find_renderer_claimed c9payload "aboutChannelRenderer" =
      some (jobj [("x", Json.str "1")]) ∧
    jobj ([] : List (String × Json)) ≠ jobj [("x", Json.str "1")] ∧
    youtube_stats ⟨some "UC0123456789012345678901", .ok 200, .ok c9payload⟩ =
      .ok (errorRes "Dados do canal nao encontrados.") := by
  refine ⟨by rfl, by rfl, ?_, by rfl⟩
  intro hcontra
  simp [jobj, JsonFields.ofList] at hcontra

/-- C9 amended: the source's search checks each dict's own keys before
recursing and returns a root-level direct hit unconditionally, while falsy
results of recursive calls are discarded and the search continues; the
claim's consequence nevertheless holds — whenever every occurrence of the
sentinel key in the payload is falsy (in particular when it is absent or
present only with an empty value), the video-channel fetch returns the
"data not found" error result. -/
theorem youtube_stats_falsy_about (cid : String) (payload : Json)
    (h : allOccNotTruthy "aboutChannelRenderer" payload = true) :
    youtube_stats ⟨some cid, .ok 200, .ok payload⟩ =
      .ok (errorRes "Dados do canal nao encontrados.") := by
  simp only [youtube_stats]
  cases hfr : find_renderer payload "aboutChannelRenderer" with
  | none => simp [hfr, Json.truthy]
  | some r =>
    have hrf : r.truthy = false :=
      find_renderer_falsy "aboutChannelRenderer" payload h r hfr
    simp [hfr, hrf]

theorem youtube_stats_falsy_about_witness :
    youtube_stats ⟨some "UC0123456789012345678901", .ok 200,
        .ok (jobj [("aboutChannelRenderer", jarr [])])⟩ =
      .ok (errorRes "Dados do canal nao encontrados.") :=
  youtube_stats_falsy_about "UC0123456789012345678901"
    (jobj [("aboutChannelRenderer", jarr [])]) (by rfl)

/-! ## C8: the result-shape invariant -/

theorem amendedInvariant_errorRes (m : String) : amendedInvariant (errorRes m) := ⟨rfl, rfl⟩

theorem amendedInvariant_blockedRes (m : String) : amendedInvariant (blockedRes m) := ⟨rfl, rfl⟩

theorem amendedInvariant_notConfigured : amendedInvariant notConfiguredRes := ⟨rfl, rfl⟩

theorem bind_ok {α β : Type} (x : Except PyExc α) (f : α → Except PyExc β) (r : β)
    (h : (x >>= f) = .ok r) : ∃ a, x = .ok a ∧ f a = .ok r := by
  cases x with
  | ok a => exact ⟨a, rfl, h⟩
  | error e => exact Except.noConfusion h

theorem youtube_stats_ok_inv (env : YtEnv) (r : PRes)
    (h : youtube_stats env = .ok r) : amendedInvariant r := by
  obtain ⟨rid, page, extracted⟩ := env
  cases rid with
  | none => simp only [youtube_stats] at h; cases h; exact amendedInvariant_errorRes _
  | some cid =>
    cases page with
    | error m => simp only [youtube_stats] at h; cases h; exact amendedInvariant_errorRes _
    | ok status =>
      cases extracted with
      | error m =>
        simp only [youtube_stats] at h
        by_cases hst : status = 200
        · rw [if_neg (not_not_intro hst)] at h
          cases h; exact amendedInvariant_errorRes _
        · rw [if_pos hst] at h; cases h; exact amendedInvariant_errorRes _
      | ok payload =>
        simp only [youtube_stats] at h
        by_cases hst : status = 200
        · rw [if_neg (not_not_intro hst)] at h
          by_cases hab :
              ((find_renderer payload "aboutChannelRenderer").getD Json.null).truthy = false
          · rw [if_pos hab] at h; cases h; exact amendedInvariant_errorRes _
          · rw [if_neg hab] at h
            obtain ⟨md, _, h⟩ := bind_ok _ _ _ h
            obtain ⟨vm, _, h⟩ := bind_ok _ _ _ h
            obtain ⟨dcu, _, h⟩ := bind_ok _ _ _ h
            obtain ⟨ccu, _, h⟩ := bind_ok _ _ _ h
            obtain ⟨sct, _, h⟩ := bind_ok _ _ _ h
            obtain ⟨followers, _, h⟩ := bind_ok _ _ _ h
            obtain ⟨vct, _, h⟩ := bind_ok _ _ _ h
            obtain ⟨videos, _, h⟩ := bind_ok _ _ _ h
            obtain ⟨wct, _, h⟩ := bind_ok _ _ _ h
            obtain ⟨views, _, h⟩ := bind_ok _ _ _ h
            cases h
            exact ⟨List.cons_ne_nil _ _, rfl⟩
        · rw [if_pos hst] at h; cases h; exact amendedInvariant_errorRes _

theorem tokcount_stats_ok_inv (u : String) (env : TkEnv) (r : PRes)
    (h : tokcount_stats u env = .ok r) : amendedInvariant r := by
  unfold tokcount_stats at h
  obtain ⟨ur, _, h⟩ := bind_ok _ _ _ h
  obtain ⟨up, _, h⟩ := bind_ok _ _ _ h
  obtain ⟨uid, _, h⟩ := bind_ok _ _ _ h
  by_cases ht : uid.truthy = false
  · rw [if_pos ht] at h
    exact Except.noConfusion h
  · rw [if_neg ht] at h
    obtain ⟨sr, _, h⟩ := bind_ok _ _ _ h
    obtain ⟨sp, _, h⟩ := bind_ok _ _ _ h
    obtain ⟨un, _, h⟩ := bind_ok _ _ _ h
    obtain ⟨f1, _, h⟩ := bind_ok _ _ _ h
    obtain ⟨f2, _, h⟩ := bind_ok _ _ _ h
    obtain ⟨f3, _, h⟩ := bind_ok _ _ _ h
    obtain ⟨f4, _, h⟩ := bind_ok _ _ _ h
    cases h
    exact ⟨List.cons_ne_nil _ _, rfl⟩

theorem parse_tiktok_web_stats_shape (ext : TtwExtract) (idv : String)
    (st : List (String × Json)) (h : parse_tiktok_web_stats ext = .ok (idv, st)) :
    st ≠ [] := by
  cases ext with
  | noMatch => exact Except.noConfusion h
  | badJson => exact Except.noConfusion h
  | parsed data =>
    simp only [parse_tiktok_web_stats] at h
    obtain ⟨scope, _, h⟩ := bind_ok _ _ _ h
    obtain ⟨ud, _, h⟩ := bind_ok _ _ _ h
    by_cases h1 : ud.truthy = false
    · rw [if_pos h1] at h; exact Except.noConfusion h
    · rw [if_neg h1] at h
      obtain ⟨ui, _, h⟩ := bind_ok _ _ _ h
      obtain ⟨stats, _, h⟩ := bind_ok _ _ _ h
      by_cases h2 : stats.truthy = false
      · rw [if_pos h2] at h; exact Except.noConfusion h
      · rw [if_neg h2] at h
        obtain ⟨user, _, h⟩ := bind_ok _ _ _ h
        obtain ⟨uidv, _, h⟩ := bind_ok _ _ _ h
        obtain ⟨fc, _, h⟩ := bind_ok _ _ _ h
        obtain ⟨hc, _, h⟩ := bind_ok _ _ _ h
        obtain ⟨hh, _, h⟩ := bind_ok _ _ _ h
        obtain ⟨fg, _, h⟩ := bind_ok _ _ _ h
        obtain ⟨vc, _, h⟩ := bind_ok _ _ _ h
        cases h
        exact List.cons_ne_nil _ _

theorem tiktok_page_ok_inv (u : String) (env : TtwEnv) (r : PRes)
    (h : tiktok_stats_page u env = .ok r) : amendedInvariant r := by
  unfold tiktok_stats_page at h
  obtain ⟨pr, _, h⟩ := bind_ok _ _ _ h
  obtain ⟨status, ext⟩ := pr
  dsimp only at h
  by_cases hst : status = 200
  · rw [if_neg (not_not_intro hst)] at h
    obtain ⟨pair, hps, h⟩ := bind_ok _ _ _ h
    obtain ⟨idv, st⟩ := pair
    dsimp only at h
    cases h
    exact ⟨parse_tiktok_web_stats_shape ext idv st hps, rfl⟩
  · rw [if_pos hst] at h
    exact Except.noConfusion h

theorem tiktok_stats_inv (u : String) (tkEnv : TkEnv) (ttwEnv : TtwEnv) :
    amendedInvariant (tiktok_stats u tkEnv ttwEnv) := by
  unfold tiktok_stats tiktok_stats_combine
  cases hp : tokcount_stats u tkEnv with
  | ok r => exact tokcount_stats_ok_inv u tkEnv r hp
  | error e =>
    cases hf : tiktok_stats_page u ttwEnv with
    | ok r => exact tiktok_page_ok_inv u ttwEnv r hf
    | error f =>
      cases e
      · exact amendedInvariant_blockedRes _
      all_goals exact amendedInvariant_errorRes _

theorem wrap_inv (e : Except PyExc PRes)
    (hok : ∀ r, e = .ok r → amendedInvariant r) : amendedInvariant (wrap e) := by
  cases e with
  | ok r => exact hok r rfl
  | error exc =>
    cases exc
    · exact amendedInvariant_blockedRes _
    all_goals exact amendedInvariant_errorRes _

theorem fetch_youtube_ok_inv (url : Option String) (env : YtEnv) (r : PRes)
    (h : fetch_youtube url env = .ok r) : amendedInvariant r := by
  cases url with
  | none => simp only [fetch_youtube] at h; cases h; exact amendedInvariant_notConfigured
  | some u =>
    simp only [fetch_youtube] at h
    by_cases hu : u = ""
    · rw [if_pos hu] at h; cases h; exact amendedInvariant_notConfigured
    · rw [if_neg hu] at h; exact youtube_stats_ok_inv env r h

/-- C8 amended: every platform result the system produces — by the
fetchers (including the not-configured case) and through the collector's
exception wrapper — satisfies: for status `ok`, metrics are populated and
no message is present; for `blocked` and `error`, a message is present and
no metrics are; for `not_configured`, neither field is populated ("exactly
one" therefore holds for every status except `not_configured`). -/
theorem every_produced_result_invariant (url : Option String) (ytEnv : YtEnv)
    (username : Option String) (tkEnv : TkEnv) (ttwEnv : TtwEnv) :
    amendedInvariant (wrap (fetch_youtube url ytEnv)) ∧
    amendedInvariant (fetch_tiktok username tkEnv ttwEnv) := by
  constructor
  · exact wrap_inv _ (fun r h => fetch_youtube_ok_inv url ytEnv r h)
  · cases username with
    | none => exact amendedInvariant_notConfigured
    | some u =>
      simp only [fetch_tiktok]
      by_cases hu : u = ""
      · rw [if_pos hu]; exact amendedInvariant_notConfigured
      · rw [if_neg hu]; exact tiktok_stats_inv u tkEnv ttwEnv

/-- C8 counterexample: the `{"status": "not_configured"}` dict produced
when a platform has no configured target carries neither metrics nor a
message, so "exactly one of the two is populated" fails on a result the
system produces. -/
theorem not_configured_neither_populated :
    fetch_tiktok none tkEnvSample ttwEnvSample = notConfiguredRes ∧
    notConfiguredRes.metrics = [] ∧ notConfiguredRes.message = none :=
  ⟨rfl, rfl, rfl⟩
